import Mathlib

/-!
Shallow embedding of the PatioRender patio-cover-app (src/patio-cover-app/src/App.jsx).

The repository source file contains two build variants of the App component,
separated by a document marker: variant A (lines 1-627, with number inputs,
EXIF handling and extra null guards) and variant B (lines 627-1029, sliders
only). Code identical in both variants is embedded once at the top level of
the PatioRender namespace; code that differs lives in the VariantA / VariantB
namespaces.

Numeric JavaScript values are embedded as exact rationals; a parseFloat
result is an `Option Rat` where `none` stands for NaN. DOM and media objects
(files, video frames, canvases, camera tracks, layout geometry) are embedded
as plain records carrying exactly the data the handlers read.
-/

namespace PatioRender

/-- The application step state: the JS strings "capture" and "preview". -/
inductive Step where
  | capture : Step
  | preview : Step
deriving DecidableEq

/-- One entry of models.json: a {value, label} pair. -/
structure ModelOption where
  value : String
  label : String
deriving DecidableEq

/-- The React state of the App component, plus the streamRef ref holding the
camera stream. `patioPosition` ([x, y, z] in the source) is split into the
three fields posX, posY, posZ. A camera track is embedded as a Bool that is
true once the track has been stopped; streamRef.current is `Option` of the
track list. `imageRotation` exists in variant A only; variant B never touches
it. -/
structure AppState where
  photo : Option String
  step : Step
  posX : Rat
  posY : Rat
  posZ : Rat
  rotationX : Rat
  rotationY : Rat
  scale : Rat
  modelOptions : List ModelOption
  selectedModel : Option String
  zoom : Rat
  backgroundZoom : Rat
  panX : Rat
  panY : Rat
  isDragging : Bool
  dragStartX : Rat
  dragStartY : Rat
  imageRotation : Int
  stream : Option (List Bool)
deriving DecidableEq

/-- The IEEE-754 double value of Math.PI, as an exact rational. -/
def mathPi : Rat := 884279719003555 / 281474976710656

/-- The useState initial values of the App component (identical in both
variants, except that variant B has no imageRotation state): photo null, step
"capture", patioPosition [0,0,0], rotationX = rotationY = Math.PI, scale 1,
empty model list, no selected model, both zooms 1, pan {x:0,y:0}, not
dragging, dragStart {x:0,y:0}, imageRotation 0, no camera stream yet. -/
def initialState : AppState where
  photo := none
  step := Step.capture
  posX := 0
  posY := 0
  posZ := 0
  rotationX := mathPi
  rotationY := mathPi
  scale := 1
  modelOptions := []
  selectedModel := none
  zoom := 1
  backgroundZoom := 1
  panX := 0
  panY := 0
  isDragging := false
  dragStartX := 0
  dragStartY := 0
  imageRotation := 0
  stream := none

/-! ### Transform-state control handlers

Each range slider's onChange commits parseFloat(e.target.value) directly;
a range input always yields a numeric string, so its parsed value is a plain
rational here. The sliders for zoom and backgroundZoom additionally reset pan
to {x:0,y:0}. These handlers are identical in both build variants.

Variant A additionally has a number input per field whose onChange parses the
text (possibly NaN, embedded as `none`), and commits only when the value is a
number inside the field's declared range; otherwise it does nothing. -/

/-- Zoom range-slider onChange: setZoom(parseFloat(v)); setPan({x:0,y:0}). -/
def onZoomSlider (v : Rat) (s : AppState) : AppState :=
  { s with zoom := v, panX := 0, panY := 0 }

/-- Background-zoom range-slider onChange: setBackgroundZoom; reset pan. -/
def onBackgroundZoomSlider (v : Rat) (s : AppState) : AppState :=
  { s with backgroundZoom := v, panX := 0, panY := 0 }

/-- X-position range-slider onChange: setPatioPosition([v, y, z]). -/
def onPosXSlider (v : Rat) (s : AppState) : AppState :=
  { s with posX := v }

/-- Y-position range-slider onChange: setPatioPosition([x, v, z]). -/
def onPosYSlider (v : Rat) (s : AppState) : AppState :=
  { s with posY := v }

/-- Z-position range-slider onChange: setPatioPosition([x, y, v]). -/
def onPosZSlider (v : Rat) (s : AppState) : AppState :=
  { s with posZ := v }

/-- Rotate-X range-slider onChange: setRotationX(parseFloat(v)). -/
def onRotationXSlider (v : Rat) (s : AppState) : AppState :=
  { s with rotationX := v }

/-- Rotate-Y range-slider onChange: setRotationY(parseFloat(v)). -/
def onRotationYSlider (v : Rat) (s : AppState) : AppState :=
  { s with rotationY := v }

/-- Scale range-slider onChange: setScale(parseFloat(v)). -/
def onScaleSlider (v : Rat) (s : AppState) : AppState :=
  { s with scale := v }

/-- Zoom number-input onChange (variant A): commit and reset pan only when
the parsed value is a number with 1 <= v <= 3. -/
def onZoomNumber (v : Option Rat) (s : AppState) : AppState :=
  match v with
  | none => s
  | some q => if 1 ≤ q ∧ q ≤ 3 then { s with zoom := q, panX := 0, panY := 0 } else s

/-- Background-zoom number-input onChange (variant A): range [1, 3]. -/
def onBackgroundZoomNumber (v : Option Rat) (s : AppState) : AppState :=
  match v with
  | none => s
  | some q =>
    if 1 ≤ q ∧ q ≤ 3 then { s with backgroundZoom := q, panX := 0, panY := 0 } else s

/-- X-position number-input onChange (variant A): range [-10, 10]. -/
def onPosXNumber (v : Option Rat) (s : AppState) : AppState :=
  match v with
  | none => s
  | some q => if -10 ≤ q ∧ q ≤ 10 then { s with posX := q } else s

/-- Y-position number-input onChange (variant A): range [-10, 10]. -/
def onPosYNumber (v : Option Rat) (s : AppState) : AppState :=
  match v with
  | none => s
  | some q => if -10 ≤ q ∧ q ≤ 10 then { s with posY := q } else s

/-- Z-position number-input onChange (variant A): range [-5, 5]. -/
def onPosZNumber (v : Option Rat) (s : AppState) : AppState :=
  match v with
  | none => s
  | some q => if -5 ≤ q ∧ q ≤ 5 then { s with posZ := q } else s

/-- Rotate-X number-input onChange (variant A): range [0, 6.28]. -/
def onRotationXNumber (v : Option Rat) (s : AppState) : AppState :=
  match v with
  | none => s
  | some q => if 0 ≤ q ∧ q ≤ 6.28 then { s with rotationX := q } else s

/-- Rotate-Y number-input onChange (variant A): range [0, 6.28]. -/
def onRotationYNumber (v : Option Rat) (s : AppState) : AppState :=
  match v with
  | none => s
  | some q => if 0 ≤ q ∧ q ≤ 6.28 then { s with rotationY := q } else s

/-- Scale number-input onChange (variant A): range [0.5, 2]. -/
def onScaleNumber (v : Option Rat) (s : AppState) : AppState :=
  match v with
  | none => s
  | some q => if 0.5 ≤ q ∧ q ≤ 2 then { s with scale := q } else s

/-- The input was rejected by a number-input guard: NaN, or outside
[lo, hi]. This is the negation of the source's acceptance test
!isNaN(value) && value >= lo && value <= hi. -/
def rejectedInput (lo hi : Rat) : Option Rat → Bool
  | none => true
  | some q => decide (q < lo) || decide (hi < q)

/-- Reset Position button onClick: setPatioPosition([0, 0, 0]). Identical in
both variants. -/
def resetPosition (s : AppState) : AppState :=
  { s with posX := 0, posY := 0, posZ := 0 }

/-! ### Model catalog loader

The fetch('/models.json') promise chain. Its observable outcomes: a network
error (fetch rejects), a non-ok response (the handler throws), a body that is
not valid JSON (response.json() rejects), or a parsed payload whose `models`
property is either absent / not an array (embedded as `none`) or an array
(embedded as `some` list, possibly empty). Every thrown error lands in the
same .catch. -/

/-- Outcome of the models.json fetch as observed by the promise chain. -/
inductive FetchOutcome where
  | networkError : FetchOutcome
  | httpError (status : Nat) : FetchOutcome
  | parseError : FetchOutcome
  | payload (models : Option (List ModelOption)) : FetchOutcome
deriving DecidableEq

/-- The outcome takes the .catch path: any error, or a payload whose models
list is missing, not an array, or empty (the handler throws on those). -/
def fetchFailed : FetchOutcome → Bool
  | FetchOutcome.payload (some models) => models.isEmpty
  | _ => true

/-- data.models[0]?.value || null: `?.` yields undefined past the end of the
list, and the empty string is the only falsy string, so the result is null
unless the list has a first element with a nonempty value. -/
def firstModelValue (models : List ModelOption) : Option String :=
  match models.head? with
  | none => none
  | some m => if m.value = "" then none else some m.value

namespace VariantA

/-- Variant A's built-in fallback model entry. -/
def defaultModelOption : ModelOption :=
  { value := "/default-model.gltf", label := "Default Model" }

/-- Variant A .catch handler: substitute the default entry and select it. -/
def applyCatalogFailure (s : AppState) : AppState :=
  { s with modelOptions := [defaultModelOption],
           selectedModel := some defaultModelOption.value }

/-- Variant A models.json effect: on a successful payload with a non-empty
models array, setModelOptions(data.models) and
setSelectedModel(data.models[0]?.value || null); every other outcome reaches
the .catch handler. -/
def loadModels (outcome : FetchOutcome) (s : AppState) : AppState :=
  match outcome with
  | FetchOutcome.payload (some models) =>
    if models.isEmpty then applyCatalogFailure s
    else { s with modelOptions := models, selectedModel := firstModelValue models }
  | _ => applyCatalogFailure s

end VariantA

namespace VariantB

/-- Variant B's built-in fallback model entry (empty value string). -/
def defaultModelOption : ModelOption :=
  { value := "", label := "Default Model (Placeholder)" }

/-- Variant B .catch handler: substitute the placeholder entry, select ''. -/
def applyCatalogFailure (s : AppState) : AppState :=
  { s with modelOptions := [defaultModelOption],
           selectedModel := some defaultModelOption.value }

/-- Variant B models.json effect: same promise chain as variant A, with the
placeholder fallback in the .catch handler. -/
def loadModels (outcome : FetchOutcome) (s : AppState) : AppState :=
  match outcome with
  | FetchOutcome.payload (some models) =>
    if models.isEmpty then applyCatalogFailure s
    else { s with modelOptions := models, selectedModel := firstModelValue models }
  | _ => applyCatalogFailure s

end VariantB

/-! ### Photo acquisition -/

/-- The EXIF orientation switch of variant A's upload handler: tag 3 yields
180, tag 6 yields 90, tag 8 yields -90, any other tag (or an absent one,
embedded as `none`) yields 0. -/
def orientationToRotation (tag : Option Int) : Int :=
  match tag with
  | some t => if t = 3 then 180 else if t = 6 then 90 else if t = 8 then -90 else 0
  | none => 0

/-- The EXIF.getData callback of variant A: setImageRotation(rotation). -/
def exifOrientationCallback (tag : Option Int) (s : AppState) : AppState :=
  { s with imageRotation := orientationToRotation tag }

/-- A user-selected file: its object URL and the EXIF orientation tag that
the asynchronous EXIF.getTag call would read from it (none if absent). -/
structure UploadFile where
  objectURL : String
  orientationTag : Option Int
deriving DecidableEq

namespace VariantA

/-- Variant A handleFileUpload: event.target.files embedded as the file
list. With no file selected the handler does nothing; otherwise it sets the
photo to the file's object URL, moves to the preview step, and the EXIF
callback (asynchronous in the source, its sole effect being
setImageRotation) stores the orientation correction. -/
def handleFileUpload (files : List UploadFile) (s : AppState) : AppState :=
  match files.head? with
  | none => s
  | some f =>
    exifOrientationCallback f.orientationTag
      { s with photo := some f.objectURL, step := Step.preview }

end VariantA

/-- The video element at capture time: its dimensions and the PNG data URL
that drawing its current frame to a canvas and calling toDataURL produces
(the frame content is opaque to the handler, so it is carried verbatim). -/
structure Video where
  videoWidth : Nat
  videoHeight : Nat
  frameDataURL : String
deriving DecidableEq

/-- The canvas.toDataURL('image/png') snapshot of the current video frame. -/
def snapshotDataURL (v : Video) : String :=
  v.frameDataURL

namespace VariantA

/-- Variant A capturePhoto: no-op when videoRef.current is null; otherwise
snapshot the frame into photo, move to the preview step, and, when a camera
stream is held, stop every one of its tracks. -/
def capturePhoto (video : Option Video) (s : AppState) : AppState :=
  match video with
  | none => s
  | some v =>
    let s1 := { s with photo := some (snapshotDataURL v), step := Step.preview }
    match s1.stream with
    | none => s1
    | some tracks => { s1 with stream := some (tracks.map fun _ => true) }

end VariantA

namespace VariantB

/-- Variant B capturePhoto: same as variant A except that it calls
streamRef.current.getTracks() without a null check. The returned Bool is
true when that call threw a TypeError (stream null); the photo and step
updates before it have already been applied at that point. -/
def capturePhoto (video : Option Video) (s : AppState) : AppState × Bool :=
  match video with
  | none => (s, false)
  | some v =>
    let s1 := { s with photo := some (snapshotDataURL v), step := Step.preview }
    match s1.stream with
    | none => (s1, true)
    | some tracks => ({ s1 with stream := some (tracks.map fun _ => true) }, false)

end VariantB

/-! ### Exporter -/

/-- The rendered WebGL canvas (canvasRef.current), carrying the PNG data URL
its toDataURL('image/png') call produces. -/
structure RenderedCanvas where
  dataURL : String
deriving DecidableEq

/-- The download triggered by the synthetic anchor click: its filename and
href. -/
structure Download where
  filename : String
  href : String
deriving DecidableEq

namespace VariantA

/-- Variant A exportDesign: if canvasRef.current is null, return without any
effect; otherwise trigger a download of the canvas PNG named
patio-cover-design.png. -/
def exportDesign (canvas : Option RenderedCanvas) : Option Download :=
  match canvas with
  | none => none
  | some c => some { filename := "patio-cover-design.png", href := c.dataURL }

end VariantA

namespace VariantB

/-- Variant B exportDesign: no null check on canvasRef.current, so with no
rendered canvas the call to canvas.toDataURL throws a TypeError (the .error
case); with a canvas it triggers the same fixed-name download. -/
def exportDesign (canvas : Option RenderedCanvas) : Except Unit Download :=
  match canvas with
  | none => Except.error ()
  | some c => Except.ok { filename := "patio-cover-design.png", href := c.dataURL }

end VariantB

/-! ### Panning -/

/-- A mouse event's client coordinates. -/
structure MouseEvent where
  clientX : Rat
  clientY : Rat
deriving DecidableEq

/-- The measured geometry the mouse-move handler reads: the container's
offsetWidth/offsetHeight and the image's base dimensions (naturalWidth and
naturalHeight in variant A, offsetWidth and offsetHeight in variant B). -/
structure Layout where
  containerWidth : Rat
  containerHeight : Rat
  imgWidth : Rat
  imgHeight : Rat
deriving DecidableEq

/-- What the mouse-move handler finds in the DOM: the container ref may be
null, container.querySelector('img') may be null, or both exist with the
measured layout. -/
inductive DomQuery where
  | noContainer : DomQuery
  | noImage : DomQuery
  | found (layout : Layout) : DomQuery
deriving DecidableEq

/-- handleMouseDown (identical in both variants): ignore the press unless
zoom > 1 or backgroundZoom > 1; otherwise start dragging and record the drag
origin relative to the current pan. -/
def handleMouseDown (e : MouseEvent) (s : AppState) : AppState :=
  if s.zoom ≤ 1 ∧ s.backgroundZoom ≤ 1 then s
  else { s with isDragging := true,
                dragStartX := e.clientX - s.panX,
                dragStartY := e.clientY - s.panY }

/-- handleMouseUp (identical in both variants): setIsDragging(false). -/
def handleMouseUp (s : AppState) : AppState :=
  { s with isDragging := false }

namespace VariantA

/-- Variant A pan bound: Math.max(0, (imgNaturalWidth * zoom *
backgroundZoom - containerWidth) / 2 / (zoom * backgroundZoom)). -/
def maxPanX (L : Layout) (zoom backgroundZoom : Rat) : Rat :=
  max 0 ((L.imgWidth * zoom * backgroundZoom - L.containerWidth) / 2 / (zoom * backgroundZoom))

/-- Variant A vertical pan bound, from the image and container heights. -/
def maxPanY (L : Layout) (zoom backgroundZoom : Rat) : Rat :=
  max 0 ((L.imgHeight * zoom * backgroundZoom - L.containerHeight) / 2 / (zoom * backgroundZoom))

/-- Variant A handleMouseMove: nothing happens unless a drag is in progress;
with a null container or a missing img the handler returns before setPan;
otherwise the new pan, derived from the cursor and the drag origin, is
clamped into [-maxPan, maxPan] on each axis and committed. -/
def handleMouseMove (dom : DomQuery) (e : MouseEvent) (s : AppState) : AppState :=
  if s.isDragging then
    match dom with
    | DomQuery.noContainer => s
    | DomQuery.noImage => s
    | DomQuery.found L =>
      let newPanX := e.clientX - s.dragStartX
      let newPanY := e.clientY - s.dragStartY
      let mx := maxPanX L s.zoom s.backgroundZoom
      let my := maxPanY L s.zoom s.backgroundZoom
      { s with panX := max (-mx) (min mx newPanX),
               panY := max (-my) (min my newPanY) }
  else s

end VariantA

namespace VariantB

/-- Variant B pan bound: (imgOffsetWidth * zoom * backgroundZoom -
containerWidth) / 2 / (zoom * backgroundZoom), with no Math.max(0, _)
guard: the bound is negative when the scaled image is narrower than the
container. -/
def maxPanX (L : Layout) (zoom backgroundZoom : Rat) : Rat :=
  (L.imgWidth * zoom * backgroundZoom - L.containerWidth) / 2 / (zoom * backgroundZoom)

/-- Variant B vertical pan bound, also without the nonnegativity guard. -/
def maxPanY (L : Layout) (zoom backgroundZoom : Rat) : Rat :=
  (L.imgHeight * zoom * backgroundZoom - L.containerHeight) / 2 / (zoom * backgroundZoom)

/-- Variant B handleMouseMove: same shape as variant A, but with the
unguarded bounds. With a missing img the source dereferences null and the
thrown TypeError leaves the state unchanged (setPan is never reached). -/
def handleMouseMove (dom : DomQuery) (e : MouseEvent) (s : AppState) : AppState :=
  if s.isDragging then
    match dom with
    | DomQuery.noContainer => s
    | DomQuery.noImage => s
    | DomQuery.found L =>
      let newPanX := e.clientX - s.dragStartX
      let newPanY := e.clientY - s.dragStartY
      let mx := maxPanX L s.zoom s.backgroundZoom
      let my := maxPanY L s.zoom s.backgroundZoom
      { s with panX := max (-mx) (min mx newPanX),
               panY := max (-my) (min my newPanY) }
  else s

end VariantB

/-- A mouse interaction on the image wrapper: press, move (with the DOM
geometry observed at that moment), or release. Leaving the wrapper fires the
same handler as release. -/
inductive PanEvent where
  | down (e : MouseEvent) : PanEvent
  | move (dom : DomQuery) (e : MouseEvent) : PanEvent
  | up : PanEvent
deriving DecidableEq

namespace VariantA

/-- Dispatch one mouse interaction to variant A's handlers. -/
def panStep (ev : PanEvent) (s : AppState) : AppState :=
  match ev with
  | PanEvent.down e => handleMouseDown e s
  | PanEvent.move dom e => handleMouseMove dom e s
  | PanEvent.up => handleMouseUp s

/-- Run a sequence of mouse interactions through variant A's handlers. -/
def runPan (evs : List PanEvent) (s : AppState) : AppState :=
  evs.foldl (fun t ev => panStep ev t) s

end VariantA

namespace VariantB

/-- Dispatch one mouse interaction to variant B's handlers. -/
def panStep (ev : PanEvent) (s : AppState) : AppState :=
  match ev with
  | PanEvent.down e => handleMouseDown e s
  | PanEvent.move dom e => handleMouseMove dom e s
  | PanEvent.up => handleMouseUp s

/-- Run a sequence of mouse interactions through variant B's handlers. -/
def runPan (evs : List PanEvent) (s : AppState) : AppState :=
  evs.foldl (fun t ev => panStep ev t) s

end VariantB

/-- Concrete layout used in the panning scenarios: a 400x400 container with
a 100x100 image. -/
def sampleLayout : Layout :=
  { containerWidth := 400, containerHeight := 400, imgWidth := 100, imgHeight := 100 }

/-- Concrete mid-drag state: a mouse press at the origin on a state zoomed
to 2, which starts a drag with drag origin (0, 0). -/
def sampleDragState : AppState :=
  handleMouseDown { clientX := 0, clientY := 0 } { initialState with zoom := 2 }

/-! ### Helper lemmas -/

theorem rejected_not_in_range {lo hi q : Rat}
    (h : rejectedInput lo hi (some q) = true) : ¬ (lo ≤ q ∧ q ≤ hi) := by
  intro hc
  simp only [rejectedInput, Bool.or_eq_true, decide_eq_true_eq] at h
  rcases h with h | h
  · exact absurd hc.1 (not_le.mpr h)
  · exact absurd hc.2 (not_le.mpr h)

theorem abs_clamp_le {m x : Rat} (hm : 0 ≤ m) : |max (-m) (min m x)| ≤ m := by
  rw [abs_le]
  constructor
  · exact le_max_left _ _
  · exact max_le (by linarith) (min_le_left _ _)

theorem abs_clamp_le_abs (m x : Rat) : |max (-m) (min m x)| ≤ |m| := by
  rcases le_or_lt 0 m with hm | hm
  · rw [abs_of_nonneg hm]
    exact abs_clamp_le hm
  · have h1 : min m x ≤ -m := le_trans (min_le_left _ _) (by linarith)
    rw [max_eq_left h1, abs_neg]

theorem maxPanXA_nonneg (L : Layout) (z b : Rat) : 0 ≤ VariantA.maxPanX L z b := by
  unfold VariantA.maxPanX
  exact le_max_left _ _

theorem maxPanYA_nonneg (L : Layout) (z b : Rat) : 0 ≤ VariantA.maxPanY L z b := by
  unfold VariantA.maxPanY
  exact le_max_left _ _

theorem panStepA_locked (ev : PanEvent) (s : AppState) (hd : s.isDragging = false)
    (hz : s.zoom ≤ 1) (hb : s.backgroundZoom ≤ 1) :
    (VariantA.panStep ev s).panX = s.panX ∧ (VariantA.panStep ev s).panY = s.panY ∧
    (VariantA.panStep ev s).isDragging = false ∧
    (VariantA.panStep ev s).zoom = s.zoom ∧
    (VariantA.panStep ev s).backgroundZoom = s.backgroundZoom := by
  cases ev with
  | down e =>
    simp only [VariantA.panStep, handleMouseDown]
    rw [if_pos ⟨hz, hb⟩]
    exact ⟨rfl, rfl, hd, rfl, rfl⟩
  | move dom e =>
    simp [VariantA.panStep, VariantA.handleMouseMove, hd]
  | up =>
    exact ⟨rfl, rfl, rfl, rfl, rfl⟩

theorem panStepB_locked (ev : PanEvent) (s : AppState) (hd : s.isDragging = false)
    (hz : s.zoom ≤ 1) (hb : s.backgroundZoom ≤ 1) :
    (VariantB.panStep ev s).panX = s.panX ∧ (VariantB.panStep ev s).panY = s.panY ∧
    (VariantB.panStep ev s).isDragging = false ∧
    (VariantB.panStep ev s).zoom = s.zoom ∧
    (VariantB.panStep ev s).backgroundZoom = s.backgroundZoom := by
  cases ev with
  | down e =>
    simp only [VariantB.panStep, handleMouseDown]
    rw [if_pos ⟨hz, hb⟩]
    exact ⟨rfl, rfl, hd, rfl, rfl⟩
  | move dom e =>
    simp [VariantB.panStep, VariantB.handleMouseMove, hd]
  | up =>
    exact ⟨rfl, rfl, rfl, rfl, rfl⟩

theorem runPanA_locked (evs : List PanEvent) :
    ∀ s : AppState, s.isDragging = false → s.zoom ≤ 1 → s.backgroundZoom ≤ 1 →
      (VariantA.runPan evs s).panX = s.panX ∧ (VariantA.runPan evs s).panY = s.panY := by
  induction evs with
  | nil => exact fun s hd hz hb => ⟨rfl, rfl⟩
  | cons ev evs ih =>
    intro s hd hz hb
    have h1 := panStepA_locked ev s hd hz hb
    have hz2 : (VariantA.panStep ev s).zoom ≤ 1 := by rw [h1.2.2.2.1]; exact hz
    have hb2 : (VariantA.panStep ev s).backgroundZoom ≤ 1 := by rw [h1.2.2.2.2]; exact hb
    have h2 := ih (VariantA.panStep ev s) h1.2.2.1 hz2 hb2
    exact ⟨h2.1.trans h1.1, h2.2.trans h1.2.1⟩

theorem runPanB_locked (evs : List PanEvent) :
    ∀ s : AppState, s.isDragging = false → s.zoom ≤ 1 → s.backgroundZoom ≤ 1 →
      (VariantB.runPan evs s).panX = s.panX ∧ (VariantB.runPan evs s).panY = s.panY := by
  induction evs with
  | nil => exact fun s hd hz hb => ⟨rfl, rfl⟩
  | cons ev evs ih =>
    intro s hd hz hb
    have h1 := panStepB_locked ev s hd hz hb
    have hz2 : (VariantB.panStep ev s).zoom ≤ 1 := by rw [h1.2.2.2.1]; exact hz
    have hb2 : (VariantB.panStep ev s).backgroundZoom ≤ 1 := by rw [h1.2.2.2.2]; exact hb
    have h2 := ih (VariantB.panStep ev s) h1.2.2.1 hz2 hb2
    exact ⟨h2.1.trans h1.1, h2.2.trans h1.2.1⟩

/-! ### Claims -/

/-- C1, counterexample: the Rotate X range-slider onChange commits the
parsed value without any range check, so the out-of-range value 10 (the
declared range is [0, 6.28]) replaces the field instead of being ignored:
the rotationX field of the initial state (Math.PI) is changed to 10. -/
theorem c1_counterexample :
    (onRotationXSlider 10 initialState).rotationX = 10 ∧
    initialState.rotationX ≠ 10 ∧
    ¬ ((0 : Rat) ≤ 10 ∧ (10 : Rat) ≤ 6.28) := by
  refine ⟨rfl, ?_, ?_⟩
  · norm_num [initialState, mathPi]
  · norm_num

/-- C1, amended: only the number-input control paths of variant A validate
against the field's declared range — a NaN or out-of-range input leaves the
whole state unchanged on each of the eight number-input paths — while the
range-slider paths commit the parsed value unconditionally. -/
theorem c1_amended (v : Option Rat) (s : AppState) :
    (rejectedInput 1 3 v = true → onZoomNumber v s = s) ∧
    (rejectedInput 1 3 v = true → onBackgroundZoomNumber v s = s) ∧
    (rejectedInput (-10) 10 v = true → onPosXNumber v s = s) ∧
    (rejectedInput (-10) 10 v = true → onPosYNumber v s = s) ∧
    (rejectedInput (-5) 5 v = true → onPosZNumber v s = s) ∧
    (rejectedInput 0 6.28 v = true → onRotationXNumber v s = s) ∧
    (rejectedInput 0 6.28 v = true → onRotationYNumber v s = s) ∧
    (rejectedInput 0.5 2 v = true → onScaleNumber v s = s) ∧
    (∀ q : Rat, (onRotationXSlider q s).rotationX = q ∧ (onZoomSlider q s).zoom = q) := by
  refine ⟨?_, ?_, ?_, ?_, ?_, ?_, ?_, ?_, fun q => ⟨rfl, rfl⟩⟩
  all_goals
    intro h
    cases v with
    | none => rfl
    | some q =>
      simp only [onZoomNumber, onBackgroundZoomNumber, onPosXNumber, onPosYNumber,
        onPosZNumber, onRotationXNumber, onRotationYNumber, onScaleNumber]
      rw [if_neg (rejected_not_in_range h)]

/-- C1, witness: a NaN input (parseFloat of non-numeric text) is rejected by
all eight number-input paths, leaving the initial state unchanged. -/
theorem c1_witness :
    onZoomNumber none initialState = initialState ∧
    onBackgroundZoomNumber none initialState = initialState ∧
    onPosXNumber none initialState = initialState ∧
    onPosYNumber none initialState = initialState ∧
    onPosZNumber none initialState = initialState ∧
    onRotationXNumber none initialState = initialState ∧
    onRotationYNumber none initialState = initialState ∧
    onScaleNumber none initialState = initialState := by
  have h := c1_amended none initialState
  exact ⟨h.1 rfl, h.2.1 rfl, h.2.2.1 rfl, h.2.2.2.1 rfl, h.2.2.2.2.1 rfl,
    h.2.2.2.2.2.1 rfl, h.2.2.2.2.2.2.1 rfl, h.2.2.2.2.2.2.2.1 rfl⟩

/-- C2: committing a value to either zoom field resets pan to (0, 0) for any
prior pan value — unconditionally on the two slider paths (present in both
variants), and on the two number-input paths of variant A every invocation
either leaves the whole state unchanged (no commit) or ends with pan at the
origin. -/
theorem c2_zoom_commit_resets_pan (v : Rat) (w : Option Rat) (s : AppState) :
    ((onZoomSlider v s).panX = 0 ∧ (onZoomSlider v s).panY = 0) ∧
    ((onBackgroundZoomSlider v s).panX = 0 ∧ (onBackgroundZoomSlider v s).panY = 0) ∧
    (onZoomNumber w s = s ∨
      ((onZoomNumber w s).panX = 0 ∧ (onZoomNumber w s).panY = 0)) ∧
    (onBackgroundZoomNumber w s = s ∨
      ((onBackgroundZoomNumber w s).panX = 0 ∧ (onBackgroundZoomNumber w s).panY = 0)) := by
  refine ⟨⟨rfl, rfl⟩, ⟨rfl, rfl⟩, ?_, ?_⟩
  · cases w with
    | none => exact Or.inl rfl
    | some q =>
      by_cases hq : 1 ≤ q ∧ q ≤ 3
      · exact Or.inr (by simp [onZoomNumber, hq])
      · exact Or.inl (by simp [onZoomNumber, hq])
  · cases w with
    | none => exact Or.inl rfl
    | some q =>
      by_cases hq : 1 ≤ q ∧ q ≤ 3
      · exact Or.inr (by simp [onBackgroundZoomNumber, hq])
      · exact Or.inl (by simp [onBackgroundZoomNumber, hq])

/-- C3: the Reset Position operation always sets the overlay position to
(0, 0, 0), for every prior state, and leaves rotationX, rotationY, scale,
zoom and backgroundZoom unchanged. -/
theorem c3_reset_position_exact (s : AppState) :
    (resetPosition s).posX = 0 ∧ (resetPosition s).posY = 0 ∧ (resetPosition s).posZ = 0 ∧
    (resetPosition s).rotationX = s.rotationX ∧
    (resetPosition s).rotationY = s.rotationY ∧
    (resetPosition s).scale = s.scale ∧
    (resetPosition s).zoom = s.zoom ∧
    (resetPosition s).backgroundZoom = s.backgroundZoom :=
  ⟨rfl, rfl, rfl, rfl, rfl, rfl, rfl, rfl⟩

/-- C4: the EXIF orientation switch maps tag 6 to +90, tag 3 to 180, tag 8
to -90 and every other or absent tag to 0, and the EXIF callback stores the
result as the photo's orientation correction (imageRotation). -/
theorem c4_orientation_mapping :
    orientationToRotation (some 6) = 90 ∧
    orientationToRotation (some 3) = 180 ∧
    orientationToRotation (some 8) = -90 ∧
    orientationToRotation none = 0 ∧
    (∀ t : Int, t ≠ 3 → t ≠ 6 → t ≠ 8 → orientationToRotation (some t) = 0) ∧
    (∀ (tag : Option Int) (s : AppState),
      (exifOrientationCallback tag s).imageRotation = orientationToRotation tag) := by
  refine ⟨by decide, by decide, by decide, rfl, ?_, fun tag s => rfl⟩
  intro t h3 h6 h8
  simp [orientationToRotation, h3, h6, h8]

/-- C4, witness: the unrecognized tag 7 maps to 0. -/
theorem c4_witness : orientationToRotation (some 7) = 0 :=
  c4_orientation_mapping.2.2.2.2.1 7 (by decide) (by decide) (by decide)

/-- C5: for every failing fetch outcome (network error, non-ok status,
malformed payload, missing or empty models list), both variants' catalog
loaders end with the model list holding exactly the one built-in default
entry and that entry's value selected. -/
theorem c5_catalog_failure_default (o : FetchOutcome) (s : AppState)
    (h : fetchFailed o = true) :
    (VariantA.loadModels o s).modelOptions = [VariantA.defaultModelOption] ∧
    (VariantA.loadModels o s).selectedModel = some VariantA.defaultModelOption.value ∧
    (VariantB.loadModels o s).modelOptions = [VariantB.defaultModelOption] ∧
    (VariantB.loadModels o s).selectedModel = some VariantB.defaultModelOption.value := by
  cases o with
  | networkError => exact ⟨rfl, rfl, rfl, rfl⟩
  | httpError status => exact ⟨rfl, rfl, rfl, rfl⟩
  | parseError => exact ⟨rfl, rfl, rfl, rfl⟩
  | payload models =>
    cases models with
    | none => exact ⟨rfl, rfl, rfl, rfl⟩
    | some l =>
      simp only [fetchFailed] at h
      simp [VariantA.loadModels, VariantB.loadModels, h,
        VariantA.applyCatalogFailure, VariantB.applyCatalogFailure]

/-- C5, witness: a network error on the initial state yields the single
default entry, selected, in both variants. -/
theorem c5_witness :
    (VariantA.loadModels FetchOutcome.networkError initialState).modelOptions =
      [VariantA.defaultModelOption] ∧
    (VariantA.loadModels FetchOutcome.networkError initialState).selectedModel =
      some VariantA.defaultModelOption.value ∧
    (VariantB.loadModels FetchOutcome.networkError initialState).modelOptions =
      [VariantB.defaultModelOption] ∧
    (VariantB.loadModels FetchOutcome.networkError initialState).selectedModel =
      some VariantB.defaultModelOption.value :=
  c5_catalog_failure_default FetchOutcome.networkError initialState (by decide)

/-- C6, counterexample: in variant B, whose bound lacks the Math.max(0, _)
guard, a drag started at zoom 2 over a 100-wide image in a 400-wide
container commits panX = 50 while the computed bound maxPanX is -50, so the
claimed invariant |panX| <= maxPanX fails at this concrete input. -/
theorem c6_counterexample :
    sampleDragState.isDragging = true ∧
    VariantB.maxPanX sampleLayout sampleDragState.zoom sampleDragState.backgroundZoom = -50 ∧
    (VariantB.handleMouseMove (DomQuery.found sampleLayout)
      { clientX := 100, clientY := 0 } sampleDragState).panX = 50 ∧
    ¬ (|(VariantB.handleMouseMove (DomQuery.found sampleLayout)
          { clientX := 100, clientY := 0 } sampleDragState).panX| ≤
        VariantB.maxPanX sampleLayout sampleDragState.zoom sampleDragState.backgroundZoom) := by
  refine ⟨by decide, ?_, ?_, ?_⟩ <;>
    norm_num [sampleDragState, sampleLayout, handleMouseDown, initialState,
      VariantB.handleMouseMove, VariantB.maxPanX, max_def, min_def]

/-- C6, amended: pan is locked while no drag is in progress and neither zoom
factor exceeds 1 — any sequence of mouse interactions leaves pan unchanged,
in both variants — and every committed pan is clamped: in variant A each
axis satisfies |pan| <= maxPan with the code's bound (nonnegative thanks to
its max(0, _) guard); in variant B, whose bound is unguarded, each axis
satisfies |pan| <= |maxPan|, the bound itself being negative when the scaled
image is smaller than the container. -/
theorem c6_amended :
    (∀ (s : AppState) (evs : List PanEvent),
      s.isDragging = false → s.zoom ≤ 1 → s.backgroundZoom ≤ 1 →
      (VariantA.runPan evs s).panX = s.panX ∧ (VariantA.runPan evs s).panY = s.panY) ∧
    (∀ (s : AppState) (evs : List PanEvent),
      s.isDragging = false → s.zoom ≤ 1 → s.backgroundZoom ≤ 1 →
      (VariantB.runPan evs s).panX = s.panX ∧ (VariantB.runPan evs s).panY = s.panY) ∧
    (∀ (L : Layout) (e : MouseEvent) (s : AppState), s.isDragging = true →
      |(VariantA.handleMouseMove (DomQuery.found L) e s).panX| ≤
        VariantA.maxPanX L s.zoom s.backgroundZoom ∧
      |(VariantA.handleMouseMove (DomQuery.found L) e s).panY| ≤
        VariantA.maxPanY L s.zoom s.backgroundZoom) ∧
    (∀ (L : Layout) (e : MouseEvent) (s : AppState), s.isDragging = true →
      |(VariantB.handleMouseMove (DomQuery.found L) e s).panX| ≤
        |VariantB.maxPanX L s.zoom s.backgroundZoom| ∧
      |(VariantB.handleMouseMove (DomQuery.found L) e s).panY| ≤
        |VariantB.maxPanY L s.zoom s.backgroundZoom|) := by
  refine ⟨fun s evs hd hz hb => runPanA_locked evs s hd hz hb,
          fun s evs hd hz hb => runPanB_locked evs s hd hz hb, ?_, ?_⟩
  · intro L e s hd
    have h1 : VariantA.handleMouseMove (DomQuery.found L) e s =
        { s with
          panX := max (-(VariantA.maxPanX L s.zoom s.backgroundZoom))
            (min (VariantA.maxPanX L s.zoom s.backgroundZoom) (e.clientX - s.dragStartX)),
          panY := max (-(VariantA.maxPanY L s.zoom s.backgroundZoom))
            (min (VariantA.maxPanY L s.zoom s.backgroundZoom) (e.clientY - s.dragStartY)) } := by
      simp [VariantA.handleMouseMove, hd]
    rw [h1]
    exact ⟨abs_clamp_le (maxPanXA_nonneg L s.zoom s.backgroundZoom),
           abs_clamp_le (maxPanYA_nonneg L s.zoom s.backgroundZoom)⟩
  · intro L e s hd
    have h1 : VariantB.handleMouseMove (DomQuery.found L) e s =
        { s with
          panX := max (-(VariantB.maxPanX L s.zoom s.backgroundZoom))
            (min (VariantB.maxPanX L s.zoom s.backgroundZoom) (e.clientX - s.dragStartX)),
          panY := max (-(VariantB.maxPanY L s.zoom s.backgroundZoom))
            (min (VariantB.maxPanY L s.zoom s.backgroundZoom) (e.clientY - s.dragStartY)) } := by
      simp [VariantB.handleMouseMove, hd]
    rw [h1]
    exact ⟨abs_clamp_le_abs _ _, abs_clamp_le_abs _ _⟩

/-- C6, witness: a press-move-release sequence on the unzoomed initial state
leaves pan at the origin in both variants, and the clamp bounds hold at a
concrete mid-drag state in both variants. -/
theorem c6_witness :
    ((VariantA.runPan [PanEvent.down { clientX := 3, clientY := 4 },
        PanEvent.move (DomQuery.found sampleLayout) { clientX := 9, clientY := 9 },
        PanEvent.up] initialState).panX = initialState.panX ∧
     (VariantA.runPan [PanEvent.down { clientX := 3, clientY := 4 },
        PanEvent.move (DomQuery.found sampleLayout) { clientX := 9, clientY := 9 },
        PanEvent.up] initialState).panY = initialState.panY) ∧
    ((VariantB.runPan [PanEvent.down { clientX := 3, clientY := 4 },
        PanEvent.move (DomQuery.found sampleLayout) { clientX := 9, clientY := 9 },
        PanEvent.up] initialState).panX = initialState.panX ∧
     (VariantB.runPan [PanEvent.down { clientX := 3, clientY := 4 },
        PanEvent.move (DomQuery.found sampleLayout) { clientX := 9, clientY := 9 },
        PanEvent.up] initialState).panY = initialState.panY) ∧
    (|(VariantA.handleMouseMove (DomQuery.found sampleLayout)
        { clientX := 100, clientY := 0 } sampleDragState).panX| ≤
       VariantA.maxPanX sampleLayout sampleDragState.zoom sampleDragState.backgroundZoom ∧
     |(VariantA.handleMouseMove (DomQuery.found sampleLayout)
        { clientX := 100, clientY := 0 } sampleDragState).panY| ≤
       VariantA.maxPanY sampleLayout sampleDragState.zoom sampleDragState.backgroundZoom) ∧
    (|(VariantB.handleMouseMove (DomQuery.found sampleLayout)
        { clientX := 100, clientY := 0 } sampleDragState).panX| ≤
       |VariantB.maxPanX sampleLayout sampleDragState.zoom sampleDragState.backgroundZoom| ∧
     |(VariantB.handleMouseMove (DomQuery.found sampleLayout)
        { clientX := 100, clientY := 0 } sampleDragState).panY| ≤
       |VariantB.maxPanY sampleLayout sampleDragState.zoom sampleDragState.backgroundZoom|) :=
  ⟨c6_amended.1 initialState _ rfl (by decide) (by decide),
   c6_amended.2.1 initialState _ rfl (by decide) (by decide),
   c6_amended.2.2.1 sampleLayout { clientX := 100, clientY := 0 } sampleDragState (by decide),
   c6_amended.2.2.2 sampleLayout { clientX := 100, clientY := 0 } sampleDragState (by decide)⟩

/-- C7: capturing from a non-null video element with a held camera stream
snapshots the current frame as the photo, moves the step from capture to
preview, and stops every track of the stream — in both variants (and in
variant B the unguarded getTracks call does not throw, since the stream is
present). -/
theorem c7_capture_photo (v : Video) (tracks : List Bool) (s : AppState)
    (_hstep : s.step = Step.capture) (hstream : s.stream = some tracks) :
    (VariantA.capturePhoto (some v) s).photo = some (snapshotDataURL v) ∧
    (VariantA.capturePhoto (some v) s).step = Step.preview ∧
    (VariantA.capturePhoto (some v) s).stream = some (tracks.map fun _ => true) ∧
    (∀ b ∈ tracks.map (fun _ => (true : Bool)), b = true) ∧
    (VariantB.capturePhoto (some v) s).2 = false ∧
    (VariantB.capturePhoto (some v) s).1.photo = some (snapshotDataURL v) ∧
    (VariantB.capturePhoto (some v) s).1.step = Step.preview ∧
    (VariantB.capturePhoto (some v) s).1.stream = some (tracks.map fun _ => true) := by
  have hA : VariantA.capturePhoto (some v) s =
      { s with photo := some (snapshotDataURL v), step := Step.preview,
               stream := some (tracks.map fun _ => true) } := by
    simp [VariantA.capturePhoto, hstream]
  have hB : VariantB.capturePhoto (some v) s =
      ({ s with photo := some (snapshotDataURL v), step := Step.preview,
                stream := some (tracks.map fun _ => true) }, false) := by
    simp [VariantB.capturePhoto, hstream]
  rw [hA, hB]
  refine ⟨rfl, rfl, rfl, ?_, rfl, rfl, rfl, rfl⟩
  intro b hb
  rcases List.mem_map.mp hb with ⟨a, ha, hab⟩
  exact hab.symm

/-- A concrete 640x480 video element whose current frame is opaque. -/
def sampleVideo : Video :=
  { videoWidth := 640, videoHeight := 480, frameDataURL := "frame" }

/-- The initial state holding an active two-track camera stream. -/
def sampleCaptureState : AppState :=
  { initialState with stream := some [false, false] }

/-- C7, witness: capturing a 640x480 frame on the initial state holding a
two-track stream yields the frame as photo, the preview step, and both
tracks stopped, in both variants. -/
theorem c7_witness :
    (VariantA.capturePhoto (some sampleVideo) sampleCaptureState).photo =
      some (snapshotDataURL sampleVideo) ∧
    (VariantA.capturePhoto (some sampleVideo) sampleCaptureState).step = Step.preview ∧
    (VariantA.capturePhoto (some sampleVideo) sampleCaptureState).stream =
      some ([false, false].map fun _ => true) ∧
    (∀ b ∈ [false, false].map (fun _ => (true : Bool)), b = true) ∧
    (VariantB.capturePhoto (some sampleVideo) sampleCaptureState).2 = false ∧
    (VariantB.capturePhoto (some sampleVideo) sampleCaptureState).1.photo =
      some (snapshotDataURL sampleVideo) ∧
    (VariantB.capturePhoto (some sampleVideo) sampleCaptureState).1.step = Step.preview ∧
    (VariantB.capturePhoto (some sampleVideo) sampleCaptureState).1.stream =
      some ([false, false].map fun _ => true) :=
  c7_capture_photo sampleVideo [false, false] sampleCaptureState rfl rfl

/-- C8, counterexample: in variant B, invoking the exporter with no rendered
canvas is not a silent no-op — the unguarded canvas.toDataURL dereference
throws (the error outcome), refuting the claim at this input. -/
theorem c8_counterexample : VariantB.exportDesign none = Except.error () := rfl

/-- C8, amended: with no rendered canvas, variant A's exporter is a silent
no-op while variant B's throws; with a canvas, both produce a PNG download
named patio-cover-design.png whose content is the canvas data URL. -/
theorem c8_amended :
    VariantA.exportDesign none = none ∧
    (∀ c : RenderedCanvas, VariantA.exportDesign (some c) =
      some { filename := "patio-cover-design.png", href := c.dataURL }) ∧
    (∀ c : RenderedCanvas, VariantB.exportDesign (some c) =
      Except.ok { filename := "patio-cover-design.png", href := c.dataURL }) ∧
    VariantB.exportDesign none = Except.error () :=
  ⟨rfl, fun _ => rfl, fun _ => rfl, rfl⟩

/-- C9: a successful manifest load whose first entry has an empty (falsy)
value sets SelectedModel to null even though the model list is stored
non-empty, because selection uses data.models[0]?.value || null. -/
theorem c9_falsy_first_value (s : AppState) (lbl : String) (rest : List ModelOption) :
    fetchFailed (FetchOutcome.payload (some ({ value := "", label := lbl } :: rest))) = false ∧
    (VariantA.loadModels (FetchOutcome.payload
      (some ({ value := "", label := lbl } :: rest))) s).selectedModel = none ∧
    (VariantA.loadModels (FetchOutcome.payload
      (some ({ value := "", label := lbl } :: rest))) s).modelOptions =
      { value := "", label := lbl } :: rest := by
  refine ⟨rfl, ?_, ?_⟩ <;> simp [VariantA.loadModels, firstModelValue]

/-- C10: invoking the file-upload handler with an empty file selection
leaves the whole application state unchanged — in particular photo, step and
the orientation correction keep their prior values. -/
theorem c10_empty_upload (s : AppState) : VariantA.handleFileUpload [] s = s := rfl

end PatioRender
